import Mathlib

/-!
Verification of the request-routing and prompt-construction pipeline of the
Oncosimis AI assistant backend (`backend/app.py`).

The embedding below translates the Python code into Lean:

* Python string primitives used by the code (`str.strip()`, `str.lower()`,
  `str.split()` with no argument, the `in` substring test, slicing
  `s[:n]`) become executable Lean functions on `String` viewed as its list
  of characters.
* `query_ollama` becomes a total function from the observable outcome of
  the HTTP POST (status code plus parsed `response` field, a timeout, or
  any other exception) to the returned string.
* The `/chat` endpoint handler becomes a function from the request message,
  the loaded corpus, the chosen random index (standing for `random.choice`)
  and the inference outcome to `Except HTTPError ChatResponse`.
-/

namespace OncosimisAI

/-- The whitespace test used by Python's `str.strip()` / `str.split()`. -/
def isWS (c : Char) : Bool := c.isWhitespace

/-- Python `str.lower()`: lower-case every character. -/
def pyLower (s : String) : String := ⟨s.data.map Char.toLower⟩

/-- Strip on character lists: drop leading, then trailing, whitespace. -/
def stripChars (l : List Char) : List Char :=
  ((l.dropWhile isWS).reverse.dropWhile isWS).reverse

/-- Python `str.strip()`: remove leading and trailing whitespace. -/
def pyStrip (s : String) : String := ⟨stripChars s.data⟩

/-- Python `str.split()` with no argument: split on whitespace runs,
dropping empty tokens. -/
def pySplit (s : String) : List String :=
  ((s.data.splitOnP isWS).filter (· ≠ [])).map (fun l => ⟨l⟩)

/-- Python `sub in hay`: `sub` occurs as a contiguous substring of `hay`. -/
def pyContains (hay sub : String) : Bool :=
  (List.range (hay.data.length + 1)).any (fun i => sub.data.isPrefixOf (hay.data.drop i))

/-- Python `s[:n]`: the first `n` characters of `s`. -/
def pySlice (s : String) (n : Nat) : String := ⟨s.data.take n⟩

/-! ## Inference client (`query_ollama`, app.py lines 192-222) -/

/-- The outcome of the HTTP POST to the Ollama generate endpoint as
`query_ollama`'s `try` block can observe it: a reply carrying a status code
together with the result of parsing the JSON body's `response` field
(`Except.error` = `response.json()` raised, `Except.ok none` = field absent,
`Except.ok (some t)` = field present with text `t`); a
`requests.exceptions.Timeout`; or any other exception. -/
inductive OllamaOutcome where
  | httpReply (status_code : Nat) (jsonResponseField : Except Unit (Option String))
  | timeoutExc
  | otherExc
deriving Repr

/-- Fallback for HTTP 200 with empty/whitespace-only generated text. -/
def fallbackEmpty : String := "Sorry, I couldn't generate a response."

/-- Fallback for a non-200 HTTP status. -/
def fallbackStatus : String := "I'm having trouble connecting to the AI model. Please try again."

/-- Fallback for a request timeout. -/
def fallbackTimeout : String := "The request took too long. Please try a simpler question."

/-- Fallback for any other transport/parsing failure. -/
def fallbackGeneric : String := "An error occurred while processing your request."

/-- `query_ollama` (app.py lines 192-222): returns the stripped generated
text on HTTP 200 when non-empty, and otherwise one of the four fixed
fallback strings. The `prompt` argument is kept for signature fidelity; the
returned string is determined by the transport outcome. -/
def query_ollama (prompt : String) (outcome : OllamaOutcome) : String :=
  match outcome with
  | .httpReply status_code jsonResponseField =>
      if status_code == 200 then
        match jsonResponseField with
        | .error _ => fallbackGeneric
        | .ok field =>
            let result := pyStrip (field.getD "")
            if result ≠ "" then result else fallbackEmpty
      else fallbackStatus
  | .timeoutExc => fallbackTimeout
  | .otherExc => fallbackGeneric

/-! ## Data model of the `/chat` endpoint -/

/-- One `{"filename": ..., "path": ...}` entry of `matching_files`. -/
structure FileRef where
  filename : String
  path : String
deriving Repr, DecidableEq

/-- The `ChatResponse` pydantic model: response text plus optional files. -/
structure ChatResponse where
  response : String
  files : Option (List FileRef)
deriving Repr, DecidableEq

/-- An `HTTPException` raised by the endpoint: status code and detail. -/
structure HTTPError where
  status : Nat
  detail : String
deriving Repr, DecidableEq

/-- The process-wide corpus state loaded at startup: the concatenated
document text (`documents_content`) and the ordered list of document file
names (`available_documents`). -/
structure Corpus where
  documents_content : String
  available_documents : List String
deriving Repr, DecidableEq

/-! ## Intent classification (app.py lines 266-287) -/

/-- The fixed greeting keyword set (app.py line 267). -/
def greeting_keywords : List String :=
  ["hi", "hello", "hey", "good morning", "good afternoon", "good evening",
   "greetings", "howdy", "hola"]

/-- The fixed file-request keyword set (app.py line 285). -/
def file_keywords : List String :=
  ["sop", "procedure", "file", "document", "download", "send me", "give me",
   "show me", "need", "list"]

/-- `is_greeting` (app.py line 270): some greeting keyword occurs in the
normalized message and the message has at most 3 whitespace tokens. -/
def is_greeting (user_message_lower : String) : Bool :=
  greeting_keywords.any (fun keyword => pyContains user_message_lower keyword) &&
    decide ((pySplit user_message_lower).length ≤ 3)

/-- `is_file_request` (app.py line 287): some file keyword occurs in the
normalized message. -/
def is_file_request (user_message_lower : String) : Bool :=
  file_keywords.any (fun keyword => pyContains user_message_lower keyword)

/-- The three response strategies of the pipeline. -/
inductive Intent where
  | greeting
  | fileRequest
  | question
deriving Repr, DecidableEq

/-- The intent classification realized by the `chat` handler's control flow:
the greeting test runs first and short-circuits, then the file-keyword test,
else the message is a knowledge question. -/
def classify (user_message_lower : String) : Intent :=
  if is_greeting user_message_lower then .greeting
  else if is_file_request user_message_lower then .fileRequest
  else .question

/-- The four fixed greeting response templates (app.py lines 273-278). -/
def greeting_responses : List String :=
  ["Hello! I'm the Oncosimis AI Assistant. I'm here to help you learn about our biotechnology platforms and services. What would you like to know?",
   "Hi there! Welcome to Oncosimis Biotech. I can tell you about our AcceTT® and BacSec® platforms, our team, or help you find Standard Operating Procedures. How can I assist you today?",
   "Greetings! I'm your AI assistant for Oncosimis Biotech. Ask me about our technologies, team, or request any SOPs you need.",
   "Hello! Nice to meet you. I'm here to provide information about Oncosimis Biotech's innovative biotechnology solutions. What interests you most?"]

/-! ## Document matching (app.py lines 289-311) -/

/-- The per-document token test (app.py line 298): some whitespace token of
the message of length strictly greater than 3 occurs as a substring of the
lower-cased document name. -/
def token_matched (words : List String) (doc : String) : Bool :=
  words.any (fun word => decide (word.length > 3) && pyContains (pyLower doc) word)

/-- `matching_files` (app.py lines 291-311): the token-matched documents in
corpus order, or — when none matched and the message contains a broad-request
keyword — every corpus document; each with path `/download/<filename>`. -/
def matching_files (user_message_lower : String) (available_documents : List String) :
    List FileRef :=
  let words := pySplit user_message_lower
  let matching := available_documents.filterMap (fun doc =>
    if token_matched words doc then some ⟨doc, "/download/" ++ doc⟩ else none)
  if matching.isEmpty &&
      (pyContains user_message_lower "all" || pyContains user_message_lower "list" ||
       pyContains user_message_lower "available" || pyContains user_message_lower "show")
  then available_documents.map (fun doc => ⟨doc, "/download/" ++ doc⟩)
  else matching

/-! ## File-request responses (app.py lines 313-331) -/

/-- The response text for exactly one matching document (app.py line 315). -/
def singleFileResponse (file : FileRef) : String :=
  "I found this document for you:\n• " ++ file.filename ++
    "\n\nClick the download button below to get it."

/-- The response text for several matching documents (app.py lines 317-320):
lists the first 10 filenames and appends a `... and N more` note when more
than 10 matched. -/
def multiFileResponse (matching : List FileRef) : String :=
  let file_list := String.intercalate "\n" ((matching.take 10).map (fun file => "• " ++ file.filename))
  let file_list := if matching.length > 10 then
      file_list ++ "\n... and " ++ toString (matching.length - 10) ++ " more"
    else file_list
  "I found " ++ toString matching.length ++ " relevant documents:\n" ++ file_list ++
    "\n\nClick the download buttons below to get them."

/-- The `ChatResponse` built when `matching_files` is non-empty (app.py
lines 313-326): the display text caps at 10 filenames, the `files` field
carries the full matched set. -/
def files_branch (matching : List FileRef) : ChatResponse :=
  if matching.length == 1 then
    ⟨singleFileResponse (matching.headD ⟨"", ""⟩), some matching⟩
  else
    ⟨multiFileResponse matching, some matching⟩

/-- The response when the message is a file request but nothing matched
(app.py lines 327-331). -/
def no_match_response : String :=
  "I couldn't find any documents matching your request. Try asking 'show me all SOPs' to see all available documents."

/-! ## Context assembly (app.py lines 333-350) -/

/-- The static company knowledge blurb `ONCOSIMIS_CONTEXT` (app.py lines
35-71). -/
def ONCOSIMIS_CONTEXT : String :=
  "You are a helpful AI assistant for Oncosimis Biotech. Answer questions using ONLY the information provided. Keep answers concise (2-3 sentences maximum) and professional.\n\n=== COMPANY INFORMATION ===\n\nQ: What is Oncosimis?\nA: Oncosimis Biotech Pvt Ltd is a biotechnology company revolutionizing the development of biologics and biosimilars at affordable costs using cutting-edge proprietary platforms.\n\nQ: What technologies does Oncosimis use?\nA: Oncosimis uses two proprietary technology platforms - AcceTT® (CHO-based high-yield production for monoclonal antibodies) and BacSec® (endotoxin-free protein expression in E. coli).\n\nQ: What is AcceTT?\nA: AcceTT® (Accelerated Technology Transfer) is Oncosimis's CHO cell-based platform designed for high-yield production of therapeutic monoclonal antibodies and recombinant proteins with reduced manufacturing costs.\n\nQ: What is BacSec?\nA: BacSec® is Oncosimis's bacterial secretion platform that produces endotoxin-free recombinant proteins and peptides in E. coli, enabling cost-effective manufacturing of biosimilars.\n\nQ: What does Oncosimis do?\nA: Oncosimis develops and manufactures bio-therapeutic proteins, monoclonal antibodies, and biosimilars for treating diseases like cancer and diabetes, making expensive biologics affordable and accessible.\n\nQ: What is Oncosimis's mission?\nA: Oncosimis is committed to making a positive impact on society by addressing global healthcare challenges through innovative biotechnology, focusing on disease treatment, food security, and environmental sustainability.\n\nQ: Who is on the Oncosimis team?\nA: Oncosimis has a team of world-renowned research scientists, doctors, and entrepreneurs specializing in drug discovery, manufacturing, and commercializing bio-therapeutics.\n\nQ: Who is the CEO?\nA: Dr. Sudarshan Reddy\n\nQ: Who is the CSO or Chief Scientific Officer?\nA: Dr. Sridhar Reddy\n\nQ: What about the team and how many members?\nA: There are approximately 13 members in the team.\n\nQ: Where is Oncosimis located?\nA: Oncosimis Biotech Pvt Ltd is located at IDA Uppal, Hyderabad, Telangana, India, 500039.\n"

/-- `max_context_length` (app.py line 337). -/
def max_context_length : Nat := 8000

/-- The corpus-excerpt portion of the assembled prompt: the whole corpus
text when within budget, else exactly its first 8000 characters
(`documents_content[:max_context_length]`, app.py lines 338-341). -/
def corpusExcerpt (documents_content : String) : String :=
  if documents_content.length > max_context_length then
    pySlice documents_content max_context_length
  else documents_content

/-- `full_context` (app.py lines 334-341): the static knowledge, followed —
when the corpus text is non-empty — by a section header and the (possibly
truncated) corpus excerpt. -/
def full_context (documents_content : String) : String :=
  if documents_content ≠ "" then
    if documents_content.length > max_context_length then
      ONCOSIMIS_CONTEXT ++ "\n\n=== STANDARD OPERATING PROCEDURES (Excerpt) ===\n" ++
        corpusExcerpt documents_content
    else
      ONCOSIMIS_CONTEXT ++ "\n\n=== STANDARD OPERATING PROCEDURES ===\n" ++
        corpusExcerpt documents_content
  else ONCOSIMIS_CONTEXT

/-- The assembled prompt (app.py lines 344-350). -/
def build_prompt (documents_content user_message : String) : String :=
  full_context documents_content ++ "\n\nUser Question: " ++ user_message ++
    "\n\nInstructions: Answer the user's question based ONLY on the information provided above. If the information is not available, say so politely. Keep your answer concise and professional (2-3 sentences maximum).\n\nAnswer:"

/-! ## The `/chat` endpoint handler (app.py lines 256-357) -/

/-- The `chat` handler. `randomIndex` stands for the draw of
`random.choice` among the greeting templates; `outcome` is the observable
result of the Ollama call on the knowledge-question path. -/
def chat (corpus : Corpus) (outcome : OllamaOutcome) (randomIndex : Nat)
    (message : String) : Except HTTPError ChatResponse :=
  let user_message := pyStrip message
  if user_message = "" then .error ⟨400, "Message cannot be empty"⟩
  else
    let user_message_lower := pyStrip (pyLower user_message)
    if is_greeting user_message_lower then
      .ok ⟨greeting_responses.getD (randomIndex % greeting_responses.length) "", none⟩
    else if is_file_request user_message_lower && !corpus.available_documents.isEmpty then
      let matching := matching_files user_message_lower corpus.available_documents
      if !matching.isEmpty then .ok (files_branch matching)
      else .ok ⟨no_match_response, none⟩
    else
      .ok ⟨query_ollama (build_prompt corpus.documents_content user_message) outcome, none⟩

/-! ## Helper lemmas on the string primitives -/

lemma dropWhile_idem (p : Char → Bool) (l : List Char) :
    (l.dropWhile p).dropWhile p = l.dropWhile p := by
  induction l with
  | nil => rfl
  | cons a t ih =>
      cases hpa : p a with
      | true => simp [List.dropWhile_cons, hpa, ih]
      | false => simp [List.dropWhile_cons, hpa]

lemma dropWhile_eq_self_of_prefix {p : Char → Bool} {w x : List Char}
    (hpre : w <+: x) (hx : x.dropWhile p = x) : w.dropWhile p = w := by
  cases w with
  | nil => rfl
  | cons a t =>
      obtain ⟨r, hr⟩ := hpre
      have hx' : x = a :: (t ++ r) := by rw [← hr]; rfl
      have hpa : p a = false := by
        cases h2 : p a with
        | false => rfl
        | true =>
            rw [hx', List.dropWhile_cons, h2] at hx
            simp only [if_pos rfl, if_true] at hx
            have hle : ((t ++ r).dropWhile p).length ≤ (t ++ r).length :=
              (List.dropWhile_sublist _).length_le
            rw [hx] at hle
            simp [List.length_cons] at hle
      simp [List.dropWhile_cons, hpa]

lemma rstrip_prefix (p : Char → Bool) (l : List Char) :
    (l.reverse.dropWhile p).reverse <+: l := by
  have h1 : l.reverse.dropWhile p <:+ l.reverse := List.dropWhile_suffix _
  have h2 := List.reverse_prefix.mpr h1
  rwa [List.reverse_reverse] at h2

lemma stripChars_idem (l : List Char) : stripChars (stripChars l) = stripChars l := by
  unfold stripChars
  have hu_dw : (l.dropWhile isWS).dropWhile isWS = l.dropWhile isWS := dropWhile_idem _ _
  have hpre : (((l.dropWhile isWS).reverse.dropWhile isWS).reverse) <+: l.dropWhile isWS :=
    rstrip_prefix _ _
  have h1 := dropWhile_eq_self_of_prefix hpre hu_dw
  rw [h1, List.reverse_reverse, dropWhile_idem]

lemma pyStrip_idem (s : String) : pyStrip (pyStrip s) = pyStrip s := by
  show (⟨stripChars (stripChars s.data)⟩ : String) = ⟨stripChars s.data⟩
  rw [stripChars_idem]

lemma stripChars_eq_nil_of_all (l : List Char) (h : l.all isWS = true) :
    stripChars l = [] := by
  unfold stripChars
  have hd : l.dropWhile isWS = [] := by
    rw [List.dropWhile_eq_nil_iff]
    exact fun x hx => List.all_eq_true.mp h x hx
  rw [hd]
  rfl

/-! ## Claims -/

/-- C1: `query_ollama` never raises to its caller — it is a total function
into `String` — and each failure path maps to its fixed fallback: timeout
gives the "took too long" string, any other transport/parsing failure gives
the generic error string, a non-200 status gives the "trouble connecting to
the AI model" string, a JSON-parsing failure (only observable on status 200)
gives the generic string, HTTP 200 whose generated text strips to empty
gives the "couldn't generate a response" string, and HTTP 200 with non-blank
text returns the stripped text. -/
theorem claim_C1_inference_fallbacks (prompt : String) (status_code : Nat)
    (body : Except Unit (Option String)) :
    (query_ollama prompt .timeoutExc = fallbackTimeout) ∧
    (query_ollama prompt .otherExc = fallbackGeneric) ∧
    (status_code ≠ 200 → query_ollama prompt (.httpReply status_code body) = fallbackStatus) ∧
    (query_ollama prompt (.httpReply status_code (.error ())) =
      if status_code = 200 then fallbackGeneric else fallbackStatus) ∧
    (∀ field : Option String, pyStrip (field.getD "") = "" →
      query_ollama prompt (.httpReply 200 (.ok field)) = fallbackEmpty) ∧
    (∀ field : Option String, pyStrip (field.getD "") ≠ "" →
      query_ollama prompt (.httpReply 200 (.ok field)) = pyStrip (field.getD "")) := by
  refine ⟨rfl, rfl, ?_, ?_, ?_, ?_⟩
  · intro h
    simp [query_ollama, h]
  · by_cases h : status_code = 200 <;> simp [query_ollama, h]
  · intro field h
    simp [query_ollama, h]
  · intro field h
    simp [query_ollama, h]

/-- C4: the corpus-excerpt portion of the assembled prompt never exceeds
8000 characters: when the corpus text is longer than 8000 characters the
excerpt is exactly its first 8000 characters (`documents_content[:8000]`,
a hard cutoff), otherwise it is the whole corpus text. -/
theorem claim_C4_excerpt_budget (documents_content : String) :
    (corpusExcerpt documents_content).data.length ≤ max_context_length ∧
    (corpusExcerpt documents_content).data = documents_content.data.take max_context_length ∧
    (documents_content.length ≤ max_context_length →
      corpusExcerpt documents_content = documents_content) ∧
    (documents_content.length > max_context_length →
      corpusExcerpt documents_content = pySlice documents_content max_context_length) := by
  by_cases h : documents_content.length > max_context_length
  · refine ⟨?_, ?_, ?_, ?_⟩
    · simp only [corpusExcerpt, if_pos h, pySlice]
      rw [List.length_take]
      exact Nat.min_le_left _ _
    · simp only [corpusExcerpt, if_pos h, pySlice]
    · intro hle
      exact absurd h (by omega)
    · intro _
      simp only [corpusExcerpt, if_pos h]
  · have hex : corpusExcerpt documents_content = documents_content := by
      simp only [corpusExcerpt, if_neg h]
    have hle : documents_content.data.length ≤ max_context_length := Nat.not_lt.mp h
    refine ⟨?_, ?_, fun _ => hex, fun hgt => absurd hgt h⟩
    · rw [hex]
      exact hle
    · rw [hex]
      exact (List.take_of_length_le hle).symm

/-- C2: a message that, after stripping and lower-casing, contains a greeting
keyword and has at most 3 whitespace tokens is classified Greeting, and the
chat handler answers with one of the fixed greeting templates and no files. -/
theorem claim_C2_greeting (message : String) (corpus : Corpus) (outcome : OllamaOutcome)
    (randomIndex : Nat)
    (h1 : greeting_keywords.any (fun keyword =>
        pyContains (pyStrip (pyLower (pyStrip message))) keyword) = true)
    (h2 : (pySplit (pyStrip (pyLower (pyStrip message)))).length ≤ 3) :
    classify (pyStrip (pyLower (pyStrip message))) = .greeting ∧
    ∃ resp : ChatResponse, chat corpus outcome randomIndex message = .ok resp ∧
      resp.response ∈ greeting_responses ∧ resp.files = none := by
  have hg : is_greeting (pyStrip (pyLower (pyStrip message))) = true := by
    simp [is_greeting, h1, h2]
  have hm : pyStrip message ≠ "" := by
    intro hcontra
    rw [hcontra] at h1
    exact absurd h1 (by decide)
  refine ⟨by simp [classify, hg], ?_⟩
  refine ⟨⟨greeting_responses.getD (randomIndex % greeting_responses.length) "", none⟩, ?_, ?_, rfl⟩
  · simp [chat, hm, hg]
  · have hlen : randomIndex % greeting_responses.length < greeting_responses.length :=
      Nat.mod_lt _ (by decide)
    rw [List.getD_eq_getElem _ _ hlen]
    exact List.getElem_mem _

/-- Witness for C2 at the message `"hi there"`. -/
theorem claim_C2_witness :
    classify (pyStrip (pyLower (pyStrip "hi there"))) = .greeting ∧
    ∃ resp : ChatResponse, chat ⟨"", []⟩ .otherExc 0 "hi there" = .ok resp ∧
      resp.response ∈ greeting_responses ∧ resp.files = none :=
  claim_C2_greeting "hi there" ⟨"", []⟩ .otherExc 0 (by decide) (by decide)

/-- C3: every `{filename, path}` pair the Document Matcher returns has a
filename drawn from the corpus document list and the derived path
`/download/<filename>` — no fabricated filenames, on any message and any
corpus. -/
theorem claim_C3_subset_invariant (user_message_lower : String)
    (available_documents : List String) (f : FileRef)
    (h : f ∈ matching_files user_message_lower available_documents) :
    f.filename ∈ available_documents ∧ f.path = "/download/" ++ f.filename := by
  simp only [matching_files] at h
  split at h
  · obtain ⟨doc, hdoc, hf⟩ := List.mem_map.mp h
    cases hf
    exact ⟨hdoc, rfl⟩
  · obtain ⟨doc, hdoc, hf⟩ := List.mem_filterMap.mp h
    split at hf
    · cases Option.some.inj hf
      exact ⟨hdoc, rfl⟩
    · exact absurd hf (by simp)

/-- Witness for C3: `"send me the safety sop"` against the corpus
`["Safety_SOP.docx"]`. -/
theorem claim_C3_witness :
    (FileRef.mk "Safety_SOP.docx" "/download/Safety_SOP.docx").filename ∈
      ["Safety_SOP.docx"] ∧
    (FileRef.mk "Safety_SOP.docx" "/download/Safety_SOP.docx").path =
      "/download/" ++ (FileRef.mk "Safety_SOP.docx" "/download/Safety_SOP.docx").filename :=
  claim_C3_subset_invariant "send me the safety sop" ["Safety_SOP.docx"]
    ⟨"Safety_SOP.docx", "/download/Safety_SOP.docx"⟩ (by decide)

/-- C5: token-based matching is decided exactly by the whitespace tokens of
length strictly greater than 3 appearing in the lower-cased filename; tokens
of length at most 3 never influence the result, and in particular
`"get it"` does not match `SOP_it_procedures.txt` on the token `"it"`. -/
theorem claim_C5_short_tokens_ignored (user_message_lower doc : String)
    (words : List String) :
    (token_matched (pySplit user_message_lower) doc = true ↔
      ∃ word ∈ pySplit user_message_lower, word.length > 3 ∧
        pyContains (pyLower doc) word = true) ∧
    (token_matched words doc =
      token_matched (words.filter (fun word => decide (word.length > 3))) doc) ∧
    (token_matched (pySplit "get it") "SOP_it_procedures.txt" = false) ∧
    (matching_files "get it" ["SOP_it_procedures.txt"] = []) := by
  refine ⟨?_, ?_, by decide, by decide⟩
  · simp [token_matched, List.any_eq_true]
  · rw [Bool.eq_iff_iff]
    simp only [token_matched, List.any_eq_true, List.mem_filter]
    constructor
    · rintro ⟨word, hw, hp⟩
      rw [Bool.and_eq_true] at hp
      exact ⟨word, ⟨hw, hp.1⟩, by simp [hp.1, hp.2]⟩
    · rintro ⟨word, ⟨hw, hgt⟩, hp⟩
      exact ⟨word, hw, hp⟩

/-- C6: when no corpus document is token-matched and the message contains a
broad-request keyword (`all`, `list`, `available`, `show`), the matcher
returns every corpus document, in corpus order. -/
theorem claim_C6_broad_fallback (user_message_lower : String)
    (available_documents : List String)
    (h0 : available_documents ≠ [])
    (h1 : ∀ doc ∈ available_documents,
      token_matched (pySplit user_message_lower) doc = false)
    (h2 : (pyContains user_message_lower "all" || pyContains user_message_lower "list" ||
           pyContains user_message_lower "available" ||
           pyContains user_message_lower "show") = true) :
    matching_files user_message_lower available_documents =
      available_documents.map (fun doc => ⟨doc, "/download/" ++ doc⟩) := by
  have hempty : available_documents.filterMap (fun doc =>
      if token_matched (pySplit user_message_lower) doc then
        some (⟨doc, "/download/" ++ doc⟩ : FileRef)
      else none) = [] := by
    rw [List.filterMap_eq_nil_iff]
    intro doc hdoc
    rw [h1 doc hdoc]
    rfl
  simp [matching_files, hempty, h2]

/-- Witness for C6: `"show me all documents"` with the corpus
`["Budget_Report.pdf"]`, which no token matches. -/
theorem claim_C6_witness :
    matching_files "show me all documents" ["Budget_Report.pdf"] =
      ["Budget_Report.pdf"].map (fun doc => ⟨doc, "/download/" ++ doc⟩) :=
  claim_C6_broad_fallback "show me all documents" ["Budget_Report.pdf"]
    (by decide) (by decide) (by decide)

/-- C7: classification precedence — a message is classified FileRequest
exactly when it contains a file keyword and is not a greeting; the greeting
test runs first and short-circuits, so `"hi list"`, which satisfies both,
is handled as a Greeting. -/
theorem claim_C7_precedence (user_message_lower : String) :
    (classify user_message_lower = .fileRequest ↔
      (is_file_request user_message_lower = true ∧
        is_greeting user_message_lower = false)) ∧
    (is_greeting user_message_lower = true →
      classify user_message_lower = .greeting) ∧
    (is_greeting user_message_lower = false →
      is_file_request user_message_lower = true →
      classify user_message_lower = .fileRequest) ∧
    (is_greeting "hi list" = true ∧ is_file_request "hi list" = true ∧
      classify "hi list" = .greeting) := by
  refine ⟨?_, ?_, ?_, by decide⟩
  · unfold classify
    cases hg : is_greeting user_message_lower <;>
      cases hf : is_file_request user_message_lower <;> simp
  · intro hg
    simp [classify, hg]
  · intro hg hf
    simp [classify, hg, hf]

/-- Witness for C7 at the message `"send me the sop"`. -/
theorem claim_C7_witness :
    classify "send me the sop" = .fileRequest ∧ is_greeting "hi list" = true :=
  ⟨((claim_C7_precedence "send me the sop").1).mpr (by decide),
   ((claim_C7_precedence "hi list").2.2.2).1⟩

/-- C8: with several matches the display text lists at most the first 10
filenames, appending `... and N more` when more than 10 matched, while the
`files` field always carries the full matched set; a single match is named
in the response with `files` containing exactly that match. -/
theorem claim_C8_display_cap (matching : List FileRef) :
    ((files_branch matching).files = some matching) ∧
    (∀ f : FileRef, matching = [f] →
      files_branch matching =
        ⟨"I found this document for you:\n• " ++ f.filename ++
          "\n\nClick the download button below to get it.", some [f]⟩) ∧
    (matching.length > 1 →
      (files_branch matching).response = multiFileResponse matching) ∧
    ((matching.take 10).length ≤ 10) ∧
    (∀ other : List FileRef, other.take 10 = matching.take 10 →
      other.length = matching.length →
      multiFileResponse other = multiFileResponse matching) ∧
    (matching.length > 10 →
      multiFileResponse matching =
        "I found " ++ toString matching.length ++ " relevant documents:\n" ++
        (String.intercalate "\n"
            ((matching.take 10).map (fun file => "• " ++ file.filename)) ++
          "\n... and " ++ toString (matching.length - 10) ++ " more") ++
        "\n\nClick the download buttons below to get them.") := by
  refine ⟨?_, ?_, ?_, ?_, ?_, ?_⟩
  · unfold files_branch
    split <;> rfl
  · intro f hf
    subst hf
    rfl
  · intro hgt
    have hne : (matching.length == 1) = false := by
      cases h : matching.length == 1 with
      | false => rfl
      | true =>
          have := eq_of_beq h
          omega
    simp [files_branch, hne]
  · rw [List.length_take]
    exact Nat.min_le_left _ _
  · intro other h1 h2
    simp only [multiFileResponse]
    rw [h1, h2]
  · intro hgt
    simp only [multiFileResponse]
    rw [if_pos hgt]

/-- C9: a chat request whose message is empty or whitespace-only is rejected
with HTTP 400 ("Message cannot be empty"), for every corpus, every inference
outcome and every random draw — so no classification, matching or inference
influences the result. -/
theorem claim_C9_empty_message_rejected (corpus : Corpus) (outcome : OllamaOutcome)
    (randomIndex : Nat) (message : String) (h : pyStrip message = "") :
    chat corpus outcome randomIndex message = .error ⟨400, "Message cannot be empty"⟩ := by
  simp [chat, h]

/-- Witness for C9 at the whitespace-only message `"   "`. -/
theorem claim_C9_witness :
    chat ⟨"", []⟩ .otherExc 0 "   " = .error ⟨400, "Message cannot be empty"⟩ :=
  claim_C9_empty_message_rejected ⟨"", []⟩ .otherExc 0 "   " (by decide)

/-- Every outcome of `query_ollama` is a non-empty string equal to its own
strip (so with no leading or trailing whitespace). -/
lemma query_ollama_nonblank (prompt : String) (outcome : OllamaOutcome) :
    query_ollama prompt outcome ≠ "" ∧
    pyStrip (query_ollama prompt outcome) = query_ollama prompt outcome := by
  cases outcome with
  | timeoutExc =>
      have he : query_ollama prompt .timeoutExc = fallbackTimeout := rfl
      rw [he]
      exact ⟨by decide, by decide⟩
  | otherExc =>
      have he : query_ollama prompt .otherExc = fallbackGeneric := rfl
      rw [he]
      exact ⟨by decide, by decide⟩
  | httpReply status_code body =>
      by_cases hs : status_code = 200
      · subst hs
        cases body with
        | error u =>
            have he : query_ollama prompt (.httpReply 200 (.error u)) = fallbackGeneric := by
              simp [query_ollama]
            rw [he]
            exact ⟨by decide, by decide⟩
        | ok field =>
            by_cases hr : pyStrip (field.getD "") = ""
            · have he : query_ollama prompt (.httpReply 200 (.ok field)) = fallbackEmpty := by
                simp [query_ollama, hr]
              rw [he]
              exact ⟨by decide, by decide⟩
            · have he : query_ollama prompt (.httpReply 200 (.ok field)) =
                  pyStrip (field.getD "") := by
                simp [query_ollama, hr]
              rw [he]
              exact ⟨hr, pyStrip_idem _⟩
      · have he : query_ollama prompt (.httpReply status_code body) = fallbackStatus := by
          simp [query_ollama, hs]
        rw [he]
        exact ⟨by decide, by decide⟩

/-- A non-empty string equal to its own strip is not whitespace-only. -/
lemma nonblank_of_strip_self {s : String} (h1 : s ≠ "") (h2 : pyStrip s = s) :
    s.data.all isWS = false := by
  cases hall : s.data.all isWS with
  | false => rfl
  | true =>
      have hz : pyStrip s = "" := by
        show (⟨stripChars s.data⟩ : String) = ""
        rw [stripChars_eq_nil_of_all _ hall]
      rw [h2] at hz
      exact absurd hz h1

/-- C10 (implicit): `query_ollama`'s result is never an empty or
whitespace-only string — on HTTP success the generated text is stripped
before being returned (the result equals its own strip), and every other
outcome is a fixed non-empty fallback; hence the knowledge-question path of
`/chat` always yields a non-empty response string. -/
theorem claim_C10_nonblank_result (prompt : String) (outcome : OllamaOutcome) :
    (query_ollama prompt outcome ≠ "") ∧
    (pyStrip (query_ollama prompt outcome) = query_ollama prompt outcome) ∧
    ((query_ollama prompt outcome).data.all isWS = false) ∧
    (∀ (corpus : Corpus) (randomIndex : Nat) (message : String),
      pyStrip message ≠ "" →
      is_greeting (pyStrip (pyLower (pyStrip message))) = false →
      (is_file_request (pyStrip (pyLower (pyStrip message))) &&
        !corpus.available_documents.isEmpty) = false →
      chat corpus outcome randomIndex message =
        .ok ⟨query_ollama (build_prompt corpus.documents_content (pyStrip message)) outcome,
          none⟩ ∧
      query_ollama (build_prompt corpus.documents_content (pyStrip message)) outcome ≠ "") := by
  obtain ⟨h1, h2⟩ := query_ollama_nonblank prompt outcome
  refine ⟨h1, h2, nonblank_of_strip_self h1 h2, ?_⟩
  intro corpus randomIndex message hm hg hf
  constructor
  · simp [chat, hm, hg, hf]
  · exact (query_ollama_nonblank _ outcome).1

end OncosimisAI
